import Mathlib

/-!
Shallow embedding of the exoplanet habitability service (`src/app.py`).

The Flask app exposes four handlers:
  * `add_exoplanet` (POST /add_exoplanet): required-field check, duplicate-name
    check against the store, then insert of a new `Exoplanet` row.
  * `predict` (POST /predict): builds the feature vector from the payload in the
    order of the loaded `FEATURES` artifact (KeyError caught as a 400), scales,
    runs the model, applies an Earth-like heuristic floor of 0.85, classifies at
    threshold 0.5 and returns the probability rounded to 4 decimal places.
    The handler body contains no database operation.
  * `rank` (GET /rank): filters rows with a non-null habitability score, orders
    by the `rank` column ascending, takes 10, and returns rank/name/score
    (score rounded to 10 decimal places). Read-only.
  * `secure_predict` (POST /secure_predict): compares the Authorization header
    with the literal "Bearer SECRET123" before anything else; on success it
    validates/scales/infers like `predict` but applies no heuristic and no
    classification, returning the raw score rounded to 6 decimal places.
    No database operation.

Modelling choices:
  * Real numbers are embedded as `ℚ` (exact arithmetic; binary-float rounding
    noise is not modelled).
  * JSON payload values are a sum: numbers, strings, and anything else.
    A present non-numeric value is accepted by `np.array` but makes
    `scaler.transform` raise (uncaught, an HTTP 500): modelled as
    `unhandledFault`. Numeric-string coercion by sklearn is not modelled;
    no claim depends on it.
  * The loaded artifacts `model.pkl` / `scaler.pkl` / `features.pkl` are
    opaque: every operation is parametrised by `FEATURES`, `scaler`, `model`.
  * Python's `round` (round half to even) is `rhe`/`roundTo`.
-/

namespace ExoHab

/-- A JSON payload value: a number (also covering ints and booleans, which
`np.array`/comparisons coerce), a string, or any other JSON value.  Strings and
other values make `scaler.transform` and `<=` comparisons raise in Python. -/
inductive JsonVal where
  | num (q : ℚ)
  | str (s : String)
  | other
deriving DecidableEq, Repr

/-- A request JSON object: a partial map from key to value. -/
abbrev Payload := String → Option JsonVal

/-- Round half to even (Python's `round` tie rule) to the nearest integer. -/
def rhe (q : ℚ) : ℤ :=
  if q - ⌊q⌋ < 1/2 then ⌊q⌋
  else if 1/2 < q - ⌊q⌋ then ⌊q⌋ + 1
  else if 2 ∣ ⌊q⌋ then ⌊q⌋ else ⌊q⌋ + 1

/-- Python's `round(x, n)`: round to `n` decimal places, ties to even. -/
def roundTo (n : ℕ) (x : ℚ) : ℚ := (rhe (x * 10 ^ n) : ℚ) / 10 ^ n

/-- One row of the `exoplanet` table (`src/app.py`, class `Exoplanet`).
The autoincrement `id` column is not modelled (no handler reads it).  The
`name` and feature columns store whatever payload value was inserted;
`habitability_score` and `rank` are nullable and set by no handler. -/
structure Exoplanet where
  name : JsonVal
  pl_rade : JsonVal
  pl_bmasse : JsonVal
  pl_eqt : JsonVal
  pl_orbper : JsonVal
  st_teff : JsonVal
  st_rad : JsonVal
  habitability_score : Option ℚ
  rank : Option ℤ
deriving DecidableEq, Repr

/-- The database: the list of persisted rows, in insertion order. -/
abbrev Store := List Exoplanet

/-- The `required` list of `add_exoplanet` (`src/app.py` lines 76-80),
in its source order. -/
def requiredFields : List String :=
  ["name", "pl_rade", "pl_bmasse", "pl_eqt", "pl_orbper", "st_teff", "st_rad"]

/-- Outcome of `add_exoplanet`: 400 "Missing feature: f", 409 "Planet already
exists", or the success message. -/
inductive AddResult where
  | missingFeature (f : String)
  | duplicate
  | added
deriving DecidableEq, Repr

/-- Total rendering of Python's `data[k]`; callers only read the value in
branches where presence of `k` was already established by the required-field
loop, so the default is never observable. -/
def getKey (data : Payload) (k : String) : JsonVal := (data k).getD .other

/-- `add_exoplanet` (`src/app.py` lines 72-102): first missing required field
is a 400; an existing row with the same name is a 409 and nothing is written;
otherwise a new row is inserted with null `habitability_score` and `rank`. -/
def add_exoplanet (store : Store) (data : Payload) : AddResult × Store :=
  match requiredFields.find? (fun f => (data f).isNone) with
  | some f => (.missingFeature f, store)
  | none =>
    if store.any (fun p => p.name == getKey data "name") then (.duplicate, store)
    else
      (.added, store ++ [{ name := getKey data "name",
                           pl_rade := getKey data "pl_rade",
                           pl_bmasse := getKey data "pl_bmasse",
                           pl_eqt := getKey data "pl_eqt",
                           pl_orbper := getKey data "pl_orbper",
                           st_teff := getKey data "st_teff",
                           st_rad := getKey data "st_rad",
                           habitability_score := none,
                           rank := none }])

/-- `[data[f] for f in FEATURES]`: left-to-right lookup, failing with the
first absent key (the KeyError caught at `src/app.py` lines 112-115). -/
def extractFeatures (fs : List String) (data : Payload) : Except String (List JsonVal) :=
  match fs with
  | [] => .ok []
  | f :: rest =>
    match data f with
    | none => .error f
    | some v => (extractFeatures rest data).map (fun vs => v :: vs)

/-- `scaler.transform` succeeds exactly when every entry of the array is
numeric; a string/other entry raises (uncaught in the handlers). -/
def allNums : List JsonVal → Option (List ℚ)
  | [] => some []
  | .num q :: rest => (allNums rest).map (fun qs => q :: qs)
  | .str _ :: _ => none
  | .other :: _ => none

/-- One conjunct `lo <= x <= hi` of the Earth-like test: a `TypeError` (model:
`.error`) if the value is not a number, else the Boolean interval test. -/
def cmpInterval (lo hi : ℚ) (v : JsonVal) : Except Unit Bool :=
  match v with
  | .num q => .ok (decide (lo ≤ q) && decide (q ≤ hi))
  | _ => .error ()

/-- The `is_earth_like` conjunction (`src/app.py` lines 129-136), with
Python's `and` short-circuit: a later non-numeric field only raises if all
earlier conjuncts were true. -/
def isEarthLikeVals (r m t p st sr : JsonVal) : Except Unit Bool :=
  (cmpInterval (8/10) (13/10) r).bind fun b1 =>
    if b1 = false then .ok false else
      (cmpInterval (1/2) 2 m).bind fun b2 =>
        if b2 = false then .ok false else
          (cmpInterval 250 320 t).bind fun b3 =>
            if b3 = false then .ok false else
              (cmpInterval 300 430 p).bind fun b4 =>
                if b4 = false then .ok false else
                  (cmpInterval 5000 6200 st).bind fun b5 =>
                    if b5 = false then .ok false else
                      cmpInterval (8/10) (13/10) sr

/-- The Earth-like predicate on numeric raw features. -/
def earthLikeQ (r m t p st sr : ℚ) : Bool :=
  (decide (8/10 ≤ r) && decide (r ≤ 13/10)) &&
  (decide (1/2 ≤ m) && decide (m ≤ 2)) &&
  (decide ((250:ℚ) ≤ t) && decide (t ≤ 320)) &&
  (decide ((300:ℚ) ≤ p) && decide (p ≤ 430)) &&
  (decide ((5000:ℚ) ≤ st) && decide (st ≤ 6200)) &&
  (decide (8/10 ≤ sr) && decide (sr ≤ 13/10))

/-- The heuristic override (`src/app.py` lines 138-139): floor the score at
0.85 when the Earth-like predicate held, else leave it unchanged. -/
def habApply (earth : Bool) (raw : ℚ) : ℚ :=
  if earth then max raw (85/100) else raw

/-- Outcome of `predict`: 400 "Missing feature", an uncaught exception
(HTTP 500), or the JSON response with the 0/1 `habitability` bit and the
probability rounded to 4 decimal places. -/
inductive PredictResult where
  | missingFeature (f : String)
  | unhandledFault
  | ok (habitability : ℕ) (probability : ℚ)
deriving DecidableEq, Repr

/-- `predict` (`src/app.py` lines 107-146): extract the `FEATURES` vector
(first missing key is a 400), scale and run the model (non-numeric entries
raise in `scaler.transform`), look up the six raw fields directly (a missing
one raises outside the `try`), evaluate `is_earth_like`, floor at 0.85 when it
holds, classify at `prob >= 0.5`, and round the reported probability to 4
decimal places.  The handler performs no database access. -/
def predict (FEATURES : List String) (scaler : List ℚ → List ℚ)
    (model : List ℚ → ℚ) (data : Payload) : PredictResult :=
  match extractFeatures FEATURES data with
  | .error f => .missingFeature f
  | .ok vals =>
    match allNums vals with
    | none => .unhandledFault
    | some x =>
      let prob := model (scaler x)
      match data "pl_rade", data "pl_bmasse", data "pl_eqt",
            data "pl_orbper", data "st_teff", data "st_rad" with
      | some r, some m, some t, some p, some st, some sr =>
        match isEarthLikeVals r m t p st sr with
        | .error _ => .unhandledFault
        | .ok e =>
          let prob2 := habApply e prob
          .ok (if (1:ℚ)/2 ≤ prob2 then 1 else 0) (roundTo 4 prob2)
      | _, _, _, _, _, _ => .unhandledFault

/-- The `/predict` handler as a state transformer on the store: the body of
`predict` in `src/app.py` contains no `db.session` operation, so the store
component is returned as received. -/
def predictOpFull (FEATURES : List String) (scaler : List ℚ → List ℚ)
    (model : List ℚ → ℚ) (store : Store) (data : Payload) :
    PredictResult × Store :=
  (predict FEATURES scaler model data, store)

/-- Outcome of `secure_predict`: 401, 400 "Missing feature", an uncaught
exception, or the score rounded to 6 decimal places. -/
inductive SecureResult where
  | unauthorized
  | missingFeature (f : String)
  | unhandledFault
  | ok (score : ℚ)
deriving DecidableEq, Repr

/-- The post-authentication part of `secure_predict` (`src/app.py` lines
179-200): same extraction/scaling/inference as `predict`, but no heuristic,
no classification, and rounding to 6 decimal places. -/
def securePredictBody (FEATURES : List String) (scaler : List ℚ → List ℚ)
    (model : List ℚ → ℚ) (data : Payload) : SecureResult :=
  match extractFeatures FEATURES data with
  | .error f => .missingFeature f
  | .ok vals =>
    match allNums vals with
    | none => .unhandledFault
    | some x => .ok (roundTo 6 (model (scaler x)))

/-- The token literal compared at `src/app.py` line 176. -/
def secretToken : String := "Bearer SECRET123"

/-- `secure_predict` (`src/app.py` lines 168-200): the Authorization header
(absent modelled as `none`) is compared with the literal before the payload is
read; on mismatch the 401 is returned immediately. -/
def secure_predict (FEATURES : List String) (scaler : List ℚ → List ℚ)
    (model : List ℚ → ℚ) (auth : Option String) (data : Payload) : SecureResult :=
  if auth = some secretToken then securePredictBody FEATURES scaler model data
  else .unauthorized

/-- SQL `ORDER BY rank ASC` key order on the nullable `rank` column: SQLite
sorts NULLs first under ASC. -/
def rankKeyLe (a b : Option ℤ) : Bool :=
  match a, b with
  | none, _ => true
  | some _, none => false
  | some x, some y => decide (x ≤ y)

/-- The `ORDER BY rank ASC` row order as a relation on rows. -/
def rankRel (a b : Exoplanet) : Prop := rankKeyLe a.rank b.rank = true

instance : DecidableRel rankRel :=
  fun a b => instDecidableEqBool (rankKeyLe a.rank b.rank) true

/-- Stable sort of rows by `rank` ascending, NULLs first (SQL leaves the tie
order unspecified; the model fixes it deterministically as the store order). -/
def sortByRank (l : List Exoplanet) : List Exoplanet := List.insertionSort rankRel l

/-- One element of the `/rank` response. -/
structure RankEntry where
  rank : Option ℤ
  planet_name : JsonVal
  habitability_score : Option ℚ
deriving DecidableEq, Repr

/-- The response row for a planet: its rounded score is non-null exactly when
the stored score is, and the `isnot(None)` filter guarantees it is. -/
def toEntry (p : Exoplanet) : RankEntry :=
  { rank := p.rank, planet_name := p.name,
    habitability_score := p.habitability_score.map (roundTo 10) }

/-- `rank` (`src/app.py` lines 150-167): filter rows with a non-null
`habitability_score`, order by the `rank` column ascending, take 10, and
map each row to its response entry.  Read-only. -/
def rank (store : Store) : List RankEntry :=
  ((sortByRank (store.filter (fun p => p.habitability_score.isSome))).take 10).map toEntry

/-- One incoming request to the service, for reachability reasoning. -/
inductive Op where
  | addOp (data : Payload)
  | predictOp (data : Payload)
  | secureOp (auth : Option String) (data : Payload)
  | rankOp
deriving Inhabited

/-- Effect of one request on the store.  Only `add_exoplanet` contains a
`db.session.add`/`commit`; the other three handlers never write. -/
def stepStore (store : Store) : Op → Store
  | .addOp data => (add_exoplanet store data).2
  | .predictOp _ => store
  | .secureOp _ _ => store
  | .rankOp => store

/-- The store after a sequence of requests against an initially empty
database. -/
def runOps (ops : List Op) : Store := ops.foldl stepStore []

/-!
Concrete instantiations for witnesses and counterexamples.  The artifacts
`features.pkl`, `scaler.pkl`, `model.pkl` are opaque external dependencies
(not in the repository); every claim theorem is parametric in them, and the
fixtures below only instantiate that quantifier.
-/

/-- Modelled from the spec: the order of the opaque `features.pkl` artifact,
taken from the spec's section 8 schema example (radius, mass, equilibrium
temperature, orbital period, stellar temperature, stellar radius). -/
def feats6 : List String :=
  ["pl_rade", "pl_bmasse", "pl_eqt", "pl_orbper", "st_teff", "st_rad"]

/-- Identity instantiation of the opaque scaler. -/
def idScaler : List ℚ → List ℚ := fun v => v

/-- Constant instantiation of the opaque model. -/
def constModel (q : ℚ) : List ℚ → ℚ := fun _ => q

/-- Earth-like payload (spec section 8 example), named "X". -/
def earthData : Payload := fun k =>
  if k = "name" then some (.str "X")
  else if k = "pl_rade" then some (.num 1)
  else if k = "pl_bmasse" then some (.num 1)
  else if k = "pl_eqt" then some (.num 288)
  else if k = "pl_orbper" then some (.num 365)
  else if k = "st_teff" then some (.num 5778)
  else if k = "st_rad" then some (.num 1)
  else none

/-- Jupiter-like payload (spec section 8 example: radius 11.2, mass 317.8,
temperature 165, period 4333). -/
def jupData : Payload := fun k =>
  if k = "name" then some (.str "Jup")
  else if k = "pl_rade" then some (.num (56/5))
  else if k = "pl_bmasse" then some (.num (1589/5))
  else if k = "pl_eqt" then some (.num 165)
  else if k = "pl_orbper" then some (.num 4333)
  else if k = "st_teff" then some (.num 5778)
  else if k = "st_rad" then some (.num 1)
  else none

/-- Payload with all six features present but the equilibrium temperature
bound to a non-numeric JSON value. -/
def badTypeData : Payload := fun k =>
  if k = "pl_rade" then some (.num 1)
  else if k = "pl_bmasse" then some (.num 1)
  else if k = "pl_eqt" then some .other
  else if k = "pl_orbper" then some (.num 365)
  else if k = "st_teff" then some (.num 5778)
  else if k = "st_rad" then some (.num 1)
  else none

/-- Payload holding only a name. -/
def nameOnlyX : Payload := fun k => if k = "name" then some (.str "X") else none

/-- The empty payload. -/
def emptyData : Payload := fun _ => none

/-- The row that adding `earthData` to an empty store creates. -/
def planetX : Exoplanet :=
  { name := .str "X", pl_rade := .num 1, pl_bmasse := .num 1,
    pl_eqt := .num 288, pl_orbper := .num 365, st_teff := .num 5778,
    st_rad := .num 1, habitability_score := none, rank := none }

/-- A row whose stored rank (1) disagrees with its low score (0). -/
def rowA : Exoplanet :=
  { name := .str "A", pl_rade := .num 1, pl_bmasse := .num 1,
    pl_eqt := .num 288, pl_orbper := .num 365, st_teff := .num 5778,
    st_rad := .num 1, habitability_score := some 0, rank := some 1 }

/-- A row whose stored rank (2) disagrees with its high score (1). -/
def rowB : Exoplanet :=
  { name := .str "B", pl_rade := .num 1, pl_bmasse := .num 1,
    pl_eqt := .num 288, pl_orbper := .num 365, st_teff := .num 5778,
    st_rad := .num 1, habitability_score := some 1, rank := some 2 }

/-! Supporting lemmas. -/

lemma rhe_intCast (k : ℤ) : rhe (k : ℚ) = k := by
  unfold rhe
  rw [Int.floor_intCast]
  norm_num

lemma rhe_nonneg (q : ℚ) (h : 0 ≤ q) : 0 ≤ rhe q := by
  have h0 : (0:ℤ) ≤ ⌊q⌋ := Int.floor_nonneg.2 h
  unfold rhe
  split_ifs <;> omega

lemma rhe_le (q : ℚ) (k : ℤ) (h : q ≤ (k:ℚ)) : rhe q ≤ k := by
  have hf : ⌊q⌋ ≤ k := by
    have := Int.floor_mono h
    simpa using this
  have hfl : (⌊q⌋ : ℚ) ≤ q := Int.floor_le q
  unfold rhe
  split_ifs with h1 h2
  · exact hf
  · rcases eq_or_lt_of_le hf with he | hl
    · exfalso
      rw [← he] at h
      linarith
    · omega
  · exact hf
  · rcases eq_or_lt_of_le hf with he | hl
    · exfalso
      rw [← he] at h
      rw [not_lt] at h1
      linarith
    · omega

lemma roundTo_nonneg (n : ℕ) (x : ℚ) (h : 0 ≤ x) : 0 ≤ roundTo n x := by
  unfold roundTo
  apply div_nonneg _ (by positivity)
  exact_mod_cast rhe_nonneg _ (mul_nonneg h (by positivity))

lemma roundTo_le_one (n : ℕ) (x : ℚ) (h : x ≤ 1) : roundTo n x ≤ 1 := by
  unfold roundTo
  rw [div_le_one (by positivity)]
  have hb : x * 10 ^ n ≤ ((10 ^ n : ℤ) : ℚ) := by
    push_cast
    nlinarith [pow_pos (show (0:ℚ) < 10 by norm_num) n]
  exact_mod_cast rhe_le _ _ hb

lemma roundTo_eq_of_int (n : ℕ) (x : ℚ) (k : ℤ) (h : x * 10 ^ n = (k:ℚ)) :
    roundTo n x = x := by
  unfold roundTo
  rw [h, rhe_intCast, ← h]
  exact mul_div_cancel_right₀ x (by positivity)

lemma le_habApply (e : Bool) (raw : ℚ) : raw ≤ habApply e raw := by
  cases e
  · simp [habApply]
  · simpa [habApply] using le_max_left raw (85/100)

lemma habApply_nonneg (e : Bool) (raw : ℚ) (h : 0 ≤ raw) : 0 ≤ habApply e raw :=
  le_trans h (le_habApply e raw)

lemma habApply_le_one (e : Bool) (raw : ℚ) (h : raw ≤ 1) : habApply e raw ≤ 1 := by
  cases e
  · simpa [habApply] using h
  · simp only [habApply, if_true]
    exact max_le h (by norm_num)

lemma earthLikeQ_eq_true_iff (r m t p st sr : ℚ) :
    earthLikeQ r m t p st sr = true ↔
      (8/10 ≤ r ∧ r ≤ 13/10 ∧ 1/2 ≤ m ∧ m ≤ 2 ∧ (250:ℚ) ≤ t ∧ t ≤ 320 ∧
       (300:ℚ) ≤ p ∧ p ≤ 430 ∧ (5000:ℚ) ≤ st ∧ st ≤ 6200 ∧
       8/10 ≤ sr ∧ sr ≤ 13/10) := by
  simp [earthLikeQ, and_assoc]

lemma isEarthLikeVals_num (r m t p st sr : ℚ) :
    isEarthLikeVals (.num r) (.num m) (.num t) (.num p) (.num st) (.num sr) =
      .ok (earthLikeQ r m t p st sr) := by
  simp only [isEarthLikeVals, cmpInterval, Except.bind]
  split_ifs with hb1 hb2 hb3 hb4 hb5 <;> simp_all [earthLikeQ]

lemma extractFeatures_error_iff (fs : List String) (data : Payload) (f : String) :
    extractFeatures fs data = .error f ↔
      fs.find? (fun x => (data x).isNone) = some f := by
  induction fs with
  | nil => simp [extractFeatures]
  | cons g rest ih =>
    unfold extractFeatures
    cases hg : data g with
    | none =>
      rw [List.find?_cons_of_pos _ (by simp [hg])]
      simp
    | some v =>
      have hmap : ∀ e : Except String (List JsonVal),
          (e.map (fun vs => v :: vs)) = .error f ↔ e = .error f := by
        intro e
        cases e <;> simp [Except.map]
      rw [hmap, ih, List.find?_cons_of_neg _ (by simp [hg])]

/-- The common successful pipeline of `predict`: with all `FEATURES` present
and numeric, and the six raw fields present and numeric, the handler returns
the classification bit of the unrounded adjusted score together with the
adjusted score rounded to 4 decimal places. -/
lemma predict_ok (FEATURES : List String) (scaler : List ℚ → List ℚ)
    (model : List ℚ → ℚ) (data : Payload) (vals : List JsonVal) (x : List ℚ)
    (r m t p st sr : ℚ)
    (hx : extractFeatures FEATURES data = .ok vals)
    (hn : allNums vals = some x)
    (hr : data "pl_rade" = some (.num r)) (hm : data "pl_bmasse" = some (.num m))
    (ht : data "pl_eqt" = some (.num t)) (hp : data "pl_orbper" = some (.num p))
    (hst : data "st_teff" = some (.num st)) (hsr : data "st_rad" = some (.num sr)) :
    predict FEATURES scaler model data =
      .ok (if (1:ℚ)/2 ≤ habApply (earthLikeQ r m t p st sr) (model (scaler x))
           then 1 else 0)
         (roundTo 4 (habApply (earthLikeQ r m t p st sr) (model (scaler x)))) := by
  simp [predict, hx, hn, hr, hm, ht, hp, hst, hsr, isEarthLikeVals_num]

/-- The common successful pipeline of `secure_predict` with a valid token:
the raw model score rounded to 6 decimal places, no heuristic. -/
lemma secure_predict_ok (FEATURES : List String) (scaler : List ℚ → List ℚ)
    (model : List ℚ → ℚ) (data : Payload) (vals : List JsonVal) (x : List ℚ)
    (hx : extractFeatures FEATURES data = .ok vals)
    (hn : allNums vals = some x) :
    secure_predict FEATURES scaler model (some secretToken) data =
      .ok (roundTo 6 (model (scaler x))) := by
  simp [secure_predict, securePredictBody, hx, hn]

lemma rankKeyLe_total (a b : Option ℤ) :
    rankKeyLe a b = true ∨ rankKeyLe b a = true := by
  cases a <;> cases b <;> simp [rankKeyLe] <;> omega

lemma rankKeyLe_trans (a b c : Option ℤ) (h1 : rankKeyLe a b = true)
    (h2 : rankKeyLe b c = true) : rankKeyLe a c = true := by
  cases a <;> cases b <;> cases c <;> simp_all [rankKeyLe] <;> omega

instance : IsTotal Exoplanet rankRel :=
  ⟨fun a b => rankKeyLe_total a.rank b.rank⟩

instance : IsTrans Exoplanet rankRel :=
  ⟨fun _ _ _ hab hbc => rankKeyLe_trans _ _ _ hab hbc⟩

/-- No request ever writes the `habitability_score` or `rank` column: `add`
inserts both as NULL and the other three handlers never touch the store. -/
lemma stepStore_all_null (store : Store) (op : Op)
    (h : store.all (fun p => p.habitability_score.isNone && p.rank.isNone) = true) :
    (stepStore store op).all
      (fun p => p.habitability_score.isNone && p.rank.isNone) = true := by
  cases op with
  | addOp data =>
    show (List.all (add_exoplanet store data).2
        fun p => p.habitability_score.isNone && p.rank.isNone) = true
    unfold add_exoplanet
    split
    · simp [h]
    · split_ifs with hd
      · simp [h]
      · simp [List.all_append, h]
  | predictOp data => exact h
  | secureOp auth data => exact h
  | rankOp => exact h

lemma habApply_true (raw : ℚ) : habApply true raw = max raw (85/100) := rfl

lemma habApply_false (raw : ℚ) : habApply false raw = raw := rfl

/-- Evaluation scheme for a successful `predict` run: supply the value of the
Earth-like test, the adjusted score, the classification bit and the rounded
probability, each with its proof. -/
lemma predict_eval (FEATURES : List String) (scaler : List ℚ → List ℚ)
    (model : List ℚ → ℚ) (data : Payload) (vals : List JsonVal) (x : List ℚ)
    (r m t p st sr : ℚ)
    (hx : extractFeatures FEATURES data = .ok vals)
    (hn : allNums vals = some x)
    (hr : data "pl_rade" = some (.num r)) (hm : data "pl_bmasse" = some (.num m))
    (ht : data "pl_eqt" = some (.num t)) (hp : data "pl_orbper" = some (.num p))
    (hst : data "st_teff" = some (.num st)) (hsr : data "st_rad" = some (.num sr))
    (e : Bool) (he : earthLikeQ r m t p st sr = e)
    (adj : ℚ) (hadj : habApply e (model (scaler x)) = adj)
    (b : ℕ) (hb : (if (1:ℚ)/2 ≤ adj then (1:ℕ) else 0) = b)
    (q : ℚ) (hq : roundTo 4 adj = q) :
    predict FEATURES scaler model data = .ok b q := by
  have h := predict_ok FEATURES scaler model data vals x r m t p st sr
      hx hn hr hm ht hp hst hsr
  simp only [he, hadj] at h
  rw [hb, hq] at h
  exact h

/-- Fully evaluated run of `predict` on the Earth-like fixture with a raw
model score of 0.3: the heuristic lifts it to 0.85. -/
lemma predict_earth_const_eval :
    predict feats6 idScaler (constModel (3/10)) earthData = .ok 1 (85/100) := by
  refine predict_eval feats6 idScaler (constModel (3/10)) earthData
      [.num 1, .num 1, .num 288, .num 365, .num 5778, .num 1]
      [1, 1, 288, 365, 5778, 1] 1 1 288 365 5778 1 rfl rfl rfl rfl rfl rfl rfl rfl
      true ((earthLikeQ_eq_true_iff 1 1 288 365 5778 1).2 (by norm_num))
      (85/100) ?_ 1 (if_pos (by norm_num : (1:ℚ)/2 ≤ 85/100))
      (85/100) (roundTo_eq_of_int 4 ((85:ℚ)/100) 8500 (by norm_num))
  show habApply true ((3:ℚ)/10) = 85/100
  rw [habApply_true]
  exact max_eq_right (by norm_num)

/-!
Claims.
-/

/-- C1: on every payload that reaches inference (all `FEATURES` present and
numeric) with the six raw fields bound to numbers, the probability computed by
`predict` before rounding is the heuristic adjustment of the raw score: it
equals `max(raw, 0.85)` when the six closed-interval tests (radius and stellar
radius in [0.8,1.3], mass in [0.5,2], equilibrium temperature in [250,320],
orbital period in [300,430], stellar temperature in [5000,6200]) all hold,
and equals the raw score unchanged otherwise; the adjusted score is never
below the raw score. -/
theorem claim_C1 (FEATURES : List String) (scaler : List ℚ → List ℚ)
    (model : List ℚ → ℚ) (data : Payload) (vals : List JsonVal) (x : List ℚ)
    (r m t p st sr : ℚ)
    (hx : extractFeatures FEATURES data = .ok vals)
    (hn : allNums vals = some x)
    (hr : data "pl_rade" = some (.num r)) (hm : data "pl_bmasse" = some (.num m))
    (ht : data "pl_eqt" = some (.num t)) (hp : data "pl_orbper" = some (.num p))
    (hst : data "st_teff" = some (.num st)) (hsr : data "st_rad" = some (.num sr)) :
    predict FEATURES scaler model data =
      .ok (if (1:ℚ)/2 ≤ habApply (earthLikeQ r m t p st sr) (model (scaler x))
           then 1 else 0)
         (roundTo 4 (habApply (earthLikeQ r m t p st sr) (model (scaler x)))) ∧
    ((8/10 ≤ r ∧ r ≤ 13/10 ∧ 1/2 ≤ m ∧ m ≤ 2 ∧ (250:ℚ) ≤ t ∧ t ≤ 320 ∧
      (300:ℚ) ≤ p ∧ p ≤ 430 ∧ (5000:ℚ) ≤ st ∧ st ≤ 6200 ∧
      8/10 ≤ sr ∧ sr ≤ 13/10) →
      habApply (earthLikeQ r m t p st sr) (model (scaler x)) =
        max (model (scaler x)) (85/100)) ∧
    (¬(8/10 ≤ r ∧ r ≤ 13/10 ∧ 1/2 ≤ m ∧ m ≤ 2 ∧ (250:ℚ) ≤ t ∧ t ≤ 320 ∧
       (300:ℚ) ≤ p ∧ p ≤ 430 ∧ (5000:ℚ) ≤ st ∧ st ≤ 6200 ∧
       8/10 ≤ sr ∧ sr ≤ 13/10) →
      habApply (earthLikeQ r m t p st sr) (model (scaler x)) = model (scaler x)) ∧
    model (scaler x) ≤ habApply (earthLikeQ r m t p st sr) (model (scaler x)) := by
  refine ⟨predict_ok FEATURES scaler model data vals x r m t p st sr
      hx hn hr hm ht hp hst hsr, ?_, ?_, le_habApply _ _⟩
  · intro h
    rw [(earthLikeQ_eq_true_iff r m t p st sr).2 h, habApply_true]
  · intro h
    have hF : earthLikeQ r m t p st sr = false := by
      rcases Bool.eq_false_or_eq_true (earthLikeQ r m t p st sr) with hT | hf
      · exact absurd ((earthLikeQ_eq_true_iff r m t p st sr).1 hT) h
      · exact hf
    rw [hF, habApply_false]

/-- Witness for C1 at the spec's own example: Earth-like features with raw
score 0.3 give probability 0.85, classification 1, and raw ≤ adjusted. -/
theorem claim_C1_witness :
    predict feats6 idScaler (constModel (3/10)) earthData = .ok 1 (85/100) ∧
    (3:ℚ)/10 ≤ habApply (earthLikeQ 1 1 288 365 5778 1) (3/10) := by
  have h := claim_C1 feats6 idScaler (constModel (3/10)) earthData
      [.num 1, .num 1, .num 288, .num 365, .num 5778, .num 1]
      [1, 1, 288, 365, 5778, 1] 1 1 288 365 5778 1 rfl rfl rfl rfl rfl rfl rfl rfl
  simp only [constModel, idScaler] at h
  refine ⟨?_, h.2.2.2⟩
  have hadj : habApply (earthLikeQ 1 1 288 365 5778 1) ((3:ℚ)/10) = 85/100 := by
    rw [(earthLikeQ_eq_true_iff 1 1 288 365 5778 1).2 (by norm_num), habApply_true]
    exact max_eq_right (by norm_num)
  rw [h.1]
  simp only [hadj]
  rw [if_pos (by norm_num : (1:ℚ)/2 ≤ 85/100),
      roundTo_eq_of_int 4 ((85:ℚ)/100) 8500 (by norm_num)]

/-- C2 fails on the code: the handler never clamps, so a feature-complete
payload with model output 1.5 is answered with probability 1.5 ∉ [0,1]; and
with model output 0.49996 the classification bit is 0 although the reported
rounded probability 0.5 passes the ≥ 0.5 test — the bit is computed from the
unrounded value. -/
theorem claim_C2_counterexample :
    predict feats6 idScaler (constModel (3/2)) jupData = .ok 1 (3/2) ∧
    ¬((3:ℚ)/2 ≤ 1) ∧
    predict feats6 idScaler (constModel (49996/100000)) jupData = .ok 0 (1/2) ∧
    (1:ℚ)/2 ≥ 1/2 := by
  have hJF : earthLikeQ (56/5) (1589/5) 165 4333 5778 1 = false := by
    rcases Bool.eq_false_or_eq_true (earthLikeQ (56/5) (1589/5) 165 4333 5778 1)
      with hT | hf
    · have := (earthLikeQ_eq_true_iff (56/5) (1589/5) 165 4333 5778 1).1 hT
      norm_num at this
    · exact hf
  have hround : roundTo 4 ((49996:ℚ)/100000) = 1/2 := by
    unfold roundTo
    rw [show (49996:ℚ)/100000 * 10 ^ 4 = 24998/5 by norm_num]
    unfold rhe
    rw [show ⌊(24998:ℚ)/5⌋ = 4999 by rw [Int.floor_eq_iff] <;> norm_num]
    rw [if_neg (by norm_num), if_pos (by norm_num)]
    norm_num
  refine ⟨?_, by norm_num, ?_, le_refl _⟩
  · exact predict_eval feats6 idScaler (constModel (3/2)) jupData
      [.num (56/5), .num (1589/5), .num 165, .num 4333, .num 5778, .num 1]
      [56/5, 1589/5, 165, 4333, 5778, 1] (56/5) (1589/5) 165 4333 5778 1
      rfl rfl rfl rfl rfl rfl rfl rfl
      false hJF (3/2) (habApply_false _)
      1 (if_pos (by norm_num : (1:ℚ)/2 ≤ 3/2))
      (3/2) (roundTo_eq_of_int 4 ((3:ℚ)/2) 15000 (by norm_num))
  · exact predict_eval feats6 idScaler (constModel (49996/100000)) jupData
      [.num (56/5), .num (1589/5), .num 165, .num 4333, .num 5778, .num 1]
      [56/5, 1589/5, 165, 4333, 5778, 1] (56/5) (1589/5) 165 4333 5778 1
      rfl rfl rfl rfl rfl rfl rfl rfl
      false hJF (49996/100000) (habApply_false _)
      0 (if_neg (by norm_num : ¬((1:ℚ)/2 ≤ 49996/100000)))
      (1/2) hround

/-- C2 corrected: on every payload that reaches inference, `predict` answers
the classification bit of the *unrounded* adjusted score (1 iff it is ≥ 0.5)
and the adjusted score rounded to 4 places; the reported probability lies in
[0,1] whenever the opaque model's raw output does (there is no clamping). -/
theorem claim_C2_amended (FEATURES : List String) (scaler : List ℚ → List ℚ)
    (model : List ℚ → ℚ) (data : Payload) (vals : List JsonVal) (x : List ℚ)
    (r m t p st sr : ℚ)
    (hx : extractFeatures FEATURES data = .ok vals)
    (hn : allNums vals = some x)
    (hr : data "pl_rade" = some (.num r)) (hm : data "pl_bmasse" = some (.num m))
    (ht : data "pl_eqt" = some (.num t)) (hp : data "pl_orbper" = some (.num p))
    (hst : data "st_teff" = some (.num st)) (hsr : data "st_rad" = some (.num sr)) :
    predict FEATURES scaler model data =
      .ok (if (1:ℚ)/2 ≤ habApply (earthLikeQ r m t p st sr) (model (scaler x))
           then 1 else 0)
         (roundTo 4 (habApply (earthLikeQ r m t p st sr) (model (scaler x)))) ∧
    (0 ≤ model (scaler x) → model (scaler x) ≤ 1 →
      0 ≤ roundTo 4 (habApply (earthLikeQ r m t p st sr) (model (scaler x))) ∧
      roundTo 4 (habApply (earthLikeQ r m t p st sr) (model (scaler x))) ≤ 1) := by
  refine ⟨predict_ok FEATURES scaler model data vals x r m t p st sr
      hx hn hr hm ht hp hst hsr, fun h0 h1 => ⟨?_, ?_⟩⟩
  · exact roundTo_nonneg _ _ (habApply_nonneg _ _ h0)
  · exact roundTo_le_one _ _ (habApply_le_one _ _ h1)

/-- Witness for the corrected C2 on the Earth fixture with raw score 0.3. -/
theorem claim_C2_amended_witness :
    predict feats6 idScaler (constModel (3/10)) earthData = .ok 1 (85/100) ∧
    0 ≤ roundTo 4 (habApply (earthLikeQ 1 1 288 365 5778 1) (3/10)) ∧
    roundTo 4 (habApply (earthLikeQ 1 1 288 365 5778 1) (3/10)) ≤ 1 := by
  have h := claim_C2_amended feats6 idScaler (constModel (3/10)) earthData
      [.num 1, .num 1, .num 288, .num 365, .num 5778, .num 1]
      [1, 1, 288, 365, 5778, 1] 1 1 288 365 5778 1 rfl rfl rfl rfl rfl rfl rfl rfl
  simp only [constModel, idScaler] at h
  have hb := h.2 (by norm_num) (by norm_num)
  refine ⟨?_, hb.1, hb.2⟩
  have hadj : habApply (earthLikeQ 1 1 288 365 5778 1) ((3:ℚ)/10) = 85/100 := by
    rw [(earthLikeQ_eq_true_iff 1 1 288 365 5778 1).2 (by norm_num), habApply_true]
    exact max_eq_right (by norm_num)
  rw [h.1]
  simp only [hadj]
  rw [if_pos (by norm_num : (1:ℚ)/2 ≤ 85/100),
      roundTo_eq_of_int 4 ((85:ℚ)/100) 8500 (by norm_num)]

/-- C3 fails on the code: `rank` orders by the stored `rank` column
ascending, not by score descending — on a store where row A has rank 1 and
score 0.1 while row B has rank 2 and score 0.9, the endpoint returns A before
B although A's score is strictly smaller. -/
theorem claim_C3_counterexample :
    rank [rowA, rowB] =
      [{ rank := some 1, planet_name := .str "A", habitability_score := some 0 },
       { rank := some 2, planet_name := .str "B", habitability_score := some 1 }] ∧
    (0:ℚ) < 1 := by
  have h0 : roundTo 10 (0:ℚ) = 0 := roundTo_eq_of_int 10 _ 0 (by norm_num)
  have h1 : roundTo 10 (1:ℚ) = 1 := roundTo_eq_of_int 10 _ (10 ^ 10) (by norm_num)
  constructor
  · rw [show rank [rowA, rowB] = [toEntry rowA, toEntry rowB] from rfl]
    simp [toEntry, rowA, rowB, h0, h1]
  · norm_num

/-- C3 corrected: `rank` returns exactly min(10, number of rows with a
non-null score) entries, all carrying a non-null score, ordered by the stored
`rank` column ascending (NULL ranks first); determinism over identical stored
data is immediate since the result is a function of the store alone. -/
theorem claim_C3_amended (store : Store) :
    (rank store).length =
      min 10 (store.countP (fun p => p.habitability_score.isSome)) ∧
    (rank store).all (fun e => e.habitability_score.isSome) = true ∧
    List.Pairwise (fun a b => rankKeyLe a.rank b.rank = true) (rank store) := by
  refine ⟨?_, ?_, ?_⟩
  · simp [rank, sortByRank, List.length_take, List.length_insertionSort,
      List.countP_eq_length_filter]
  · rw [List.all_eq_true]
    intro e he
    rw [rank, List.mem_map] at he
    obtain ⟨q, hq, rfl⟩ := he
    have hq' : q ∈ sortByRank (store.filter (fun p => p.habitability_score.isSome)) :=
      (List.take_sublist _ _).subset hq
    have hqf : q ∈ store.filter (fun p => p.habitability_score.isSome) :=
      (List.perm_insertionSort rankRel _).subset hq'
    have hsome := (List.mem_filter.1 hqf).2
    simp [toEntry, Option.isSome_map, hsome]
  · have hs : List.Pairwise rankRel
        (sortByRank (store.filter (fun p => p.habitability_score.isSome))) :=
      List.sorted_insertionSort rankRel _
    have hT : List.Pairwise rankRel
        ((sortByRank (store.filter (fun p => p.habitability_score.isSome))).take 10) :=
      List.Pairwise.sublist (List.take_sublist _ _) hs
    rw [rank, List.pairwise_map]
    exact hT

/-- C4 fails on the code: a valid `predict` call whose payload name "X"
matches the persisted body "X" computes the score 0.85 but writes nothing —
the matching row's `habitability_score` is still null afterwards. -/
theorem claim_C4_counterexample :
    predictOpFull feats6 idScaler (constModel (3/10)) [planetX] earthData =
      (.ok 1 (85/100), [planetX]) ∧
    [planetX].map (fun p => p.habitability_score) = [none] ∧
    earthData "name" = some (.str "X") ∧ planetX.name = .str "X" := by
  refine ⟨?_, rfl, rfl, rfl⟩
  unfold predictOpFull
  rw [predict_earth_const_eval]

/-- C4 corrected: the `/predict` handler contains no store write at all — for
every call, matched name or not, a result is returned and the store is left
entirely unchanged.  (Definitional on the embedding because the handler body
in `src/app.py` lines 107-146 performs no `db.session` operation.) -/
theorem claim_C4_amended (FEATURES : List String) (scaler : List ℚ → List ℚ)
    (model : List ℚ → ℚ) (store : Store) (data : Payload) :
    predictOpFull FEATURES scaler model store data =
      (predict FEATURES scaler model data, store) := rfl

/-- C5: when at least one of the `FEATURES` keys is absent from the payload,
`predict` fails naming exactly the first absent key in schema order; when at
least one of `add_exoplanet`'s required fields is absent, the add fails
naming exactly the first absent field in the `required` list order and the
store is untouched. -/
theorem claim_C5 (FEATURES : List String) (scaler : List ℚ → List ℚ)
    (model : List ℚ → ℚ) (store : Store) (data : Payload) (f g : String)
    (hf : FEATURES.find? (fun x => (data x).isNone) = some f)
    (hg : requiredFields.find? (fun x => (data x).isNone) = some g) :
    predict FEATURES scaler model data = .missingFeature f ∧
    add_exoplanet store data = (.missingFeature g, store) := by
  have hx : extractFeatures FEATURES data = .error f :=
    (extractFeatures_error_iff FEATURES data f).2 hf
  exact ⟨by simp [predict, hx], by simp [add_exoplanet, hg]⟩

/-- Witness for C5 on the empty payload: the first missing schema key is
`pl_rade` for `predict` and `name` for `add_exoplanet`. -/
theorem claim_C5_witness :
    predict feats6 idScaler (constModel 0) emptyData = .missingFeature "pl_rade" ∧
    add_exoplanet [] emptyData = (.missingFeature "name", []) :=
  claim_C5 feats6 idScaler (constModel 0) [] emptyData "pl_rade" "name" rfl rfl

/-- C6 fails as stated: the duplicate-name check runs only after the
missing-field loop, so an `add_exoplanet` call whose name "X" is already
persisted but which omits `pl_rade` fails with the missing-feature error,
not the duplicate conflict. -/
theorem claim_C6_counterexample :
    [planetX].any (fun p => p.name == JsonVal.str "X") = true ∧
    nameOnlyX "name" = some (.str "X") ∧
    add_exoplanet [planetX] nameOnlyX = (.missingFeature "pl_rade", [planetX]) := by
  exact ⟨rfl, rfl, by decide⟩

/-- C6 corrected: every *feature-complete* `add_exoplanet` call whose name is
already present fails with the duplicate conflict and the store is left
unchanged — no partial write occurs. -/
theorem claim_C6_amended (store : Store) (data : Payload)
    (hall : requiredFields.all (fun f => (data f).isSome) = true)
    (hdup : store.any (fun p => p.name == getKey data "name") = true) :
    add_exoplanet store data = (.duplicate, store) := by
  have hnone : requiredFields.find? (fun f => (data f).isNone) = none := by
    rw [List.find?_eq_none]
    intro x hx
    have hs := List.all_eq_true.1 hall x hx
    cases hxv : data x with
    | none => rw [hxv] at hs; simp at hs
    | some v => simp [hxv]
  simp [add_exoplanet, hnone, hdup]

/-- Witness for the corrected C6: adding the Earth payload named "X" on a
store already holding "X" is a conflict and leaves the store unchanged. -/
theorem claim_C6_amended_witness :
    add_exoplanet [planetX] earthData = (.duplicate, [planetX]) :=
  claim_C6_amended [planetX] earthData (by decide) (by decide)

/-- C7 fails on the code: the secure path applies no heuristic — on the
Earth-like fixture with raw score 0.3, `/predict` answers 0.85 while
`/secure_predict` answers 0.3. -/
theorem claim_C7_counterexample :
    predict feats6 idScaler (constModel (3/10)) earthData = .ok 1 (85/100) ∧
    secure_predict feats6 idScaler (constModel (3/10)) (some secretToken) earthData =
      .ok (3/10) ∧
    (3:ℚ)/10 ≠ 85/100 := by
  refine ⟨predict_earth_const_eval, ?_, by norm_num⟩
  have h := secure_predict_ok feats6 idScaler (constModel (3/10)) earthData
      [.num 1, .num 1, .num 288, .num 365, .num 5778, .num 1]
      [1, 1, 288, 365, 5778, 1] rfl rfl
  simp only [constModel, idScaler] at h
  rw [h, roundTo_eq_of_int 6 ((3:ℚ)/10) 300000 (by norm_num)]

/-- C7 corrected: on every payload that reaches inference, the authorized
secure path runs the same extraction, scaling and inference as `predict` but
returns the *raw* score rounded to 6 decimal places, with no heuristic floor
and no classification; `predict` returns the heuristic-adjusted score. -/
theorem claim_C7_amended (FEATURES : List String) (scaler : List ℚ → List ℚ)
    (model : List ℚ → ℚ) (data : Payload) (vals : List JsonVal) (x : List ℚ)
    (r m t p st sr : ℚ)
    (hx : extractFeatures FEATURES data = .ok vals)
    (hn : allNums vals = some x)
    (hr : data "pl_rade" = some (.num r)) (hm : data "pl_bmasse" = some (.num m))
    (ht : data "pl_eqt" = some (.num t)) (hp : data "pl_orbper" = some (.num p))
    (hst : data "st_teff" = some (.num st)) (hsr : data "st_rad" = some (.num sr)) :
    secure_predict FEATURES scaler model (some secretToken) data =
      .ok (roundTo 6 (model (scaler x))) ∧
    predict FEATURES scaler model data =
      .ok (if (1:ℚ)/2 ≤ habApply (earthLikeQ r m t p st sr) (model (scaler x))
           then 1 else 0)
         (roundTo 4 (habApply (earthLikeQ r m t p st sr) (model (scaler x)))) :=
  ⟨secure_predict_ok FEATURES scaler model data vals x hx hn,
   predict_ok FEATURES scaler model data vals x r m t p st sr
     hx hn hr hm ht hp hst hsr⟩

/-- Witness for the corrected C7 on the Earth fixture with raw score 0.3. -/
theorem claim_C7_amended_witness :
    secure_predict feats6 idScaler (constModel (3/10)) (some secretToken) earthData =
      .ok (roundTo 6 (3/10)) ∧
    predict feats6 idScaler (constModel (3/10)) earthData =
      .ok (if (1:ℚ)/2 ≤ habApply (earthLikeQ 1 1 288 365 5778 1) (3/10)
           then 1 else 0)
         (roundTo 4 (habApply (earthLikeQ 1 1 288 365 5778 1) (3/10))) := by
  have h := claim_C7_amended feats6 idScaler (constModel (3/10)) earthData
      [.num 1, .num 1, .num 288, .num 365, .num 5778, .num 1]
      [1, 1, 288, 365, 5778, 1] 1 1 288 365 5778 1 rfl rfl rfl rfl rfl rfl rfl rfl
  exact ⟨h.1, h.2⟩

/-- C8 fails on the code: a payload with every required feature present but a
non-numeric equilibrium temperature makes `scaler.transform` raise an
uncaught exception (HTTP 500) — there is no InvalidTypeError and no
bad-request response. -/
theorem claim_C8_counterexample :
    predict feats6 idScaler (constModel 0) badTypeData = .unhandledFault := by
  decide

/-- C8 corrected: when all `FEATURES` keys are present but some value is not
numeric, both `predict` and the authorized secure path die with an unhandled
fault (uncaught exception in `scaler.transform`), not with a typed
user-correctable validation error. -/
theorem claim_C8_amended (FEATURES : List String) (scaler : List ℚ → List ℚ)
    (model : List ℚ → ℚ) (data : Payload) (vals : List JsonVal)
    (hx : extractFeatures FEATURES data = .ok vals)
    (hbad : allNums vals = none) :
    predict FEATURES scaler model data = .unhandledFault ∧
    secure_predict FEATURES scaler model (some secretToken) data =
      .unhandledFault := by
  exact ⟨by simp [predict, hx, hbad],
         by simp [secure_predict, securePredictBody, hx, hbad]⟩

/-- Witness for the corrected C8 on the bad-type fixture. -/
theorem claim_C8_amended_witness :
    predict feats6 idScaler (constModel 0) badTypeData = .unhandledFault ∧
    secure_predict feats6 idScaler (constModel 0) (some secretToken) badTypeData =
      .unhandledFault :=
  claim_C8_amended feats6 idScaler (constModel 0) badTypeData
    [.num 1, .num 1, .other, .num 365, .num 5778, .num 1] rfl rfl

/-- C9: starting from the empty store, after any finite sequence of add,
predict, secure-predict and rank requests, every persisted row still has a
null habitability score and a null rank (no handler ever writes either
column), and therefore the `/rank` endpoint answers the empty list in every
reachable state. -/
theorem claim_C9 (ops : List Op) :
    (runOps ops).all
      (fun p => p.habitability_score.isNone && p.rank.isNone) = true ∧
    rank (runOps ops) = [] := by
  have key : ∀ (l : List Op) (s : Store),
      s.all (fun p => p.habitability_score.isNone && p.rank.isNone) = true →
      (l.foldl stepStore s).all
        (fun p => p.habitability_score.isNone && p.rank.isNone) = true := by
    intro l
    induction l with
    | nil => exact fun s h => h
    | cons op rest ih => exact fun s h => ih _ (stepStore_all_null s op h)
  have h1 := key ops [] rfl
  refine ⟨h1, ?_⟩
  have hfil : (runOps ops).filter (fun p => p.habitability_score.isSome) = [] := by
    rw [List.filter_eq_nil_iff]
    intro p hp
    have hall := List.all_eq_true.1 h1 p hp
    simp only [Bool.and_eq_true] at hall
    simp [Option.isNone_iff_eq_none.1 hall.1]
  simp [rank, hfil, sortByRank]

/-- C10: the `/secure_predict` handler compares the Authorization header with
the literal "Bearer SECRET123" before anything else: on any other header
value (including an absent header) it answers the 401 without consulting the
payload, the scaler, the model or the store; with the exact literal it
proceeds to the scoring body. -/
theorem claim_C10 (FEATURES : List String) (scaler : List ℚ → List ℚ)
    (model : List ℚ → ℚ) (auth : Option String) (data : Payload) :
    (auth ≠ some secretToken →
      secure_predict FEATURES scaler model auth data = .unauthorized ∧
      ∀ (F : List String) (sc : List ℚ → List ℚ) (mo : List ℚ → ℚ) (d : Payload),
        secure_predict FEATURES scaler model auth data =
          secure_predict F sc mo auth d) ∧
    (auth = some secretToken →
      secure_predict FEATURES scaler model auth data =
        securePredictBody FEATURES scaler model data) := by
  constructor
  · intro h
    refine ⟨by simp [secure_predict, h], fun F sc mo d => ?_⟩
    simp [secure_predict, h]
  · intro h
    simp [secure_predict, h]

/-- Witness for C10: a missing header is rejected with 401; the exact literal
reaches the scoring body. -/
theorem claim_C10_witness :
    secure_predict feats6 idScaler (constModel 0) none earthData = .unauthorized ∧
    secure_predict feats6 idScaler (constModel 0) (some secretToken) earthData =
      securePredictBody feats6 idScaler (constModel 0) earthData := by
  refine ⟨((claim_C10 feats6 idScaler (constModel 0) none earthData).1
      (by simp)).1, ?_⟩
  exact (claim_C10 feats6 idScaler (constModel 0) (some secretToken) earthData).2 rfl

end ExoHab
